import Mathlib

/-!
Verification of the SwapSathi Deal Lifecycle Coordinator specification
against the repository sources.

The development shallowly embeds:
* the on-chain escrow contract `src/contracts/EscrowContract.sol`
  (deal records, settlement transfers, dispute resolution), and
* the off-chain persistence layer `src/lib/database.ts` together with the
  deal API route handlers `src/app/api/deals/[id]/route.ts` (GET/PUT) and
  `src/app/api/deals/route.ts` (POST).

Machine integers of the contract are modelled as `Nat` with explicit
`2 ^ 256` overflow guards where Solidity 0.8 checked arithmetic can revert.
SQL numeric columns are modelled as `ℚ`; SQL result sets as Lean lists.
-/

namespace SwapSathi

/-! ## On-chain escrow contract (src/contracts/EscrowContract.sol) -/

/-- Ethereum addresses, abstracted to naturals. -/
abbrev Address := Nat

/-- Upper bound of uint256 arithmetic; Solidity 0.8 reverts past it. -/
def UINT256 : Nat := 2 ^ 256

/-- `DEAL_TIMEOUT = 24 hours`, in seconds (EscrowContract.sol line 42). -/
def DEAL_TIMEOUT : Nat := 24 * 60 * 60

/-- `DISPUTE_FEE = 0.001 ether`, in wei (EscrowContract.sol line 43). -/
def DISPUTE_FEE : Nat := 1000000000000000

/-- `enum DealStatus` of the contract (EscrowContract.sol lines 15-22). -/
inductive ChainDealStatus
  | Created
  | Funded
  | PaymentSent
  | Completed
  | Disputed
  | Cancelled
deriving DecidableEq

/-- `struct Deal` of the contract (EscrowContract.sol lines 24-36). -/
structure ChainDeal where
  dealId : Nat
  buyer : Address
  seller : Address
  token : Address
  amount : Nat
  inrAmount : Nat
  status : ChainDealStatus
  createdAt : Nat
  expiresAt : Nat
  sellerConfirmed : Bool
  buyerConfirmed : Bool
deriving DecidableEq

/-- One outgoing ERC20 `safeTransfer` issued by the contract. -/
structure Transfer where
  token : Address
  recipient : Address
  amount : Nat
deriving DecidableEq

/-- Sum of the token amounts of a list of transfers. -/
def transferTotal (ts : List Transfer) : Nat :=
  (ts.map Transfer.amount).sum

/-- Immutable-per-call contract configuration: `arbitrator`, `feeRecipient`
and the storage variable `platformFeePercent` (EscrowContract.sol 45-47). -/
structure EscrowEnv where
  arbitrator : Address
  feeRecipient : Address
  platformFeePercent : Nat
deriving DecidableEq

/-- Revert reasons of the embedded contract functions; the `require`
messages of the source, plus the implicit checked-arithmetic reverts. -/
inductive EvmErr
  | cannotTradeWithYourself
  | amountZero
  | inrAmountZero
  | onlySeller
  | onlyBuyer
  | onlyArbitrator
  | notParticipant
  | wrongStatus
  | insufficientDisputeFee
  | arithmeticOverflow
  | arithmeticUnderflow
  | feeTooHigh
deriving DecidableEq

/-- `userReputation[a]++` for a single address. -/
def bumpRep (rep : Address → Nat) (a : Address) : Address → Nat :=
  fun x => if x = a then rep a + 1 else rep x

/-- `createDeal` (EscrowContract.sol lines 87-115): requires
`_seller != msg.sender`, positive amounts, and records a `Created` deal
expiring `DEAL_TIMEOUT` after creation. -/
def chainCreateDeal (sender seller token : Address) (amount inrAmount : Nat)
    (nextId now : Nat) : Except EvmErr ChainDeal :=
  if seller = sender then .error .cannotTradeWithYourself
  else if amount = 0 then .error .amountZero
  else if inrAmount = 0 then .error .inrAmountZero
  else .ok
    { dealId := nextId
      buyer := sender
      seller := seller
      token := token
      amount := amount
      inrAmount := inrAmount
      status := ChainDealStatus.Created
      createdAt := now
      expiresAt := now + DEAL_TIMEOUT
      sellerConfirmed := false
      buyerConfirmed := false }

/-- `initiateDispute` (EscrowContract.sol lines 181-192): a deal
participant paying at least `DISPUTE_FEE` moves a `Funded` or
`PaymentSent` deal to `Disputed`. -/
def initiateDispute (sender : Address) (msgValue : Nat) (d : ChainDeal) :
    Except EvmErr ChainDeal :=
  if ¬ (sender = d.buyer ∨ sender = d.seller) then .error .notParticipant
  else if msgValue < DISPUTE_FEE then .error .insufficientDisputeFee
  else if ¬ (d.status = ChainDealStatus.Funded ∨ d.status = ChainDealStatus.PaymentSent) then
    .error .wrongStatus
  else .ok { d with status := ChainDealStatus.Disputed }

/-- The fee/payout split of a settlement toward the seller
(EscrowContract.sol lines 156-166 and 208-215): the platform fee is
`amount * platformFeePercent / 10000` rounded down, the seller receives
the remainder, and the fee transfer is skipped when the fee is zero.
Checked multiplication and subtraction revert on overflow/underflow. -/
def sellerSettlement (env : EscrowEnv) (d : ChainDeal) :
    Except EvmErr (List Transfer) :=
  if UINT256 ≤ d.amount * env.platformFeePercent then .error .arithmeticOverflow
  else
    let fee := d.amount * env.platformFeePercent / 10000
    if d.amount < fee then .error .arithmeticUnderflow
    else
      .ok (Transfer.mk d.token d.seller (d.amount - fee) ::
        (if 0 < fee then [Transfer.mk d.token env.feeRecipient fee] else []))

/-- `confirmPaymentReceived` (EscrowContract.sol lines 149-176): only the
seller, only from `PaymentSent`; pays the seller minus the platform fee,
marks the deal `Completed` and bumps both reputations. -/
def confirmPaymentReceived (env : EscrowEnv) (sender : Address)
    (d : ChainDeal) (rep : Address → Nat) :
    Except EvmErr (ChainDeal × (Address → Nat) × List Transfer) :=
  if sender ≠ d.seller then .error .onlySeller
  else if d.status ≠ ChainDealStatus.PaymentSent then .error .wrongStatus
  else
    match sellerSettlement env d with
    | .error e => .error e
    | .ok ts =>
      .ok ({ d with sellerConfirmed := true, status := ChainDealStatus.Completed },
        bumpRep (bumpRep rep d.buyer) d.seller, ts)

/-- `resolveDispute` (EscrowContract.sol lines 197-220): only the
arbitrator, only from `Disputed`; favouring the buyer refunds the full
escrowed amount with no fee, favouring the seller pays out as a normal
settlement; either way the deal becomes `Completed`. -/
def resolveDispute (env : EscrowEnv) (sender : Address) (favorBuyer : Bool)
    (d : ChainDeal) (rep : Address → Nat) :
    Except EvmErr (ChainDeal × (Address → Nat) × List Transfer) :=
  if sender ≠ env.arbitrator then .error .onlyArbitrator
  else if d.status ≠ ChainDealStatus.Disputed then .error .wrongStatus
  else if favorBuyer then
    .ok ({ d with status := ChainDealStatus.Completed }, rep,
      [Transfer.mk d.token d.buyer d.amount])
  else
    match sellerSettlement env d with
    | .error e => .error e
    | .ok ts => .ok ({ d with status := ChainDealStatus.Completed }, rep, ts)

/-- `updatePlatformFee` (EscrowContract.sol lines 257-260): the arbitrator
may set any fee of at most 500 basis points (5 percent). -/
def updatePlatformFee (env : EscrowEnv) (sender : Address) (newFee : Nat) :
    Except EvmErr EscrowEnv :=
  if sender ≠ env.arbitrator then .error .onlyArbitrator
  else if 500 < newFee then .error .feeTooHigh
  else .ok { env with platformFeePercent := newFee }

/-! ## Off-chain data model (src/lib/database.ts) -/

/-- The `status` CHECK constraint of the `deals` table and the
`Deal["status"]` union type (database.ts lines 67 and 198). -/
inductive DealStatus
  | initiated
  | funded
  | payment_sent
  | completed
  | disputed
  | cancelled
  | expired
deriving DecidableEq

/-- `users` row, restricted to the columns the embedded operations read
or write (database.ts lines 18-31). -/
structure User where
  id : Nat
  wallet_address : String
  reputation_score : Int
  total_trades : Nat
  successful_trades : Nat
deriving DecidableEq

/-- The `type` CHECK constraint of the `ads` table. -/
inductive AdType
  | buy
  | sell
deriving DecidableEq

/-- The `status` CHECK constraint of the `ads` table. -/
inductive AdStatus
  | active
  | paused
  | completed
  | cancelled
deriving DecidableEq

/-- `ads` row, restricted to the columns the deal POST handler reads
(database.ts lines 33-54).  `min_amount` and `max_amount` are nullable;
numeric columns are modelled as `ℚ`. -/
structure Ad where
  id : Nat
  user_id : Nat
  asset : String
  type : AdType
  amount : ℚ
  price : ℚ
  min_amount : Option ℚ
  max_amount : Option ℚ
  payment_method : String
  upi_id : Option String
  status : AdStatus
deriving DecidableEq

/-- `deals` row (database.ts lines 56-83).  `payment_details` is an
opaque JSON string; timestamps are naturals; ratings are nullable
integers. -/
structure Deal where
  id : Nat
  ad_id : Nat
  buyer_id : Nat
  seller_id : Nat
  amount : ℚ
  price : ℚ
  total_inr : ℚ
  escrow_contract_address : Option String
  transaction_hash : Option String
  deal_id_on_chain : Option Nat
  status : DealStatus
  payment_method : String
  payment_details : Option String
  upi_id : Option String
  dispute_reason : Option String
  arbitrator_decision : Option String
  buyer_rating : Option Nat
  seller_rating : Option Nat
  buyer_feedback : Option String
  seller_feedback : Option String
  created_at : Nat
  updated_at : Nat
  funded_at : Option Nat
  payment_sent_at : Option Nat
  completed_at : Option Nat
  expires_at : Nat
deriving DecidableEq

/-- `notifications` row (database.ts lines 96-105); `type` holds one of
the CHECK-constrained kind strings. -/
structure Notification where
  user_id : Nat
  title : String
  message : String
  type : String
  related_id : Option Nat
  is_read : Bool
deriving DecidableEq

/-- The persistent store: the tables the deal flows touch, plus the id
the next inserted deal receives (`gen_random_uuid()` abstracted to a
counter). -/
structure DB where
  users : List User
  ads : List Ad
  deals : List Deal
  notifications : List Notification
  nextDealId : Nat
deriving DecidableEq

/-- JavaScript truthiness of an optional string: absent and empty are
falsy. -/
def nonEmptyS : Option String → Option String
  | some s => if s.isEmpty then none else some s
  | none => none

/-- JavaScript truthiness of an optional number: absent and `0` are
falsy. -/
def nonZeroN : Option Nat → Option Nat
  | some n => if n = 0 then none else some n
  | none => none

/-- JavaScript truthiness of a nullable numeric column: `NULL` and `0`
are falsy. -/
def truthyQ : Option ℚ → Bool
  | some q => decide (q ≠ 0)
  | none => false

/-- `getDealById` (database.ts lines 470-473): `SELECT * FROM deals
WHERE id = $1`, first row. -/
def getDealById (db : DB) (dealId : Nat) : Option Deal :=
  db.deals.find? fun d => decide (d.id = dealId)

/-- `toLowerCase()`, modelled over the character list (the builtin
`String.toLower` runs through an opaque auxiliary that blocks
evaluation in proofs). -/
def lowerAscii (s : String) : String :=
  String.mk (s.data.map Char.toLower)

/-- `getUserByWallet` (database.ts lines 280-283): the lookup lowercases
the wallet address first. -/
def getUserByWallet (db : DB) (walletAddress : String) : Option User :=
  db.users.find? fun u => decide (u.wallet_address = lowerAscii walletAddress)

/-- `getAdById` (database.ts lines 398-411): only `active` ads are
found. -/
def getAdById (db : DB) (adId : Nat) : Option Ad :=
  db.ads.find? fun a => decide (a.id = adId ∧ a.status = AdStatus.active)

/-! ### Reputation recomputation (database.ts lines 285-312) -/

/-- The `reputation_calc` CTE source set: rows of `deals` with
`(buyer_id = u OR seller_id = u) AND status = 'completed'`. -/
def completedDealsFor (deals : List Deal) (u : Nat) : List Deal :=
  deals.filter fun d =>
    decide ((d.buyer_id = u ∨ d.seller_id = u) ∧ d.status = DealStatus.completed)

/-- `total_completed_deals` of the CTE. -/
def completedCount (deals : List Deal) (u : Nat) : Nat :=
  (completedDealsFor deals u).length

/-- SQL `rating >= 4` on a nullable column: `NULL` compares to false. -/
def ratingAtLeastFour : Option Nat → Bool
  | some n => decide (4 ≤ n)
  | none => false

/-- `positive_ratings` of the CTE: within the same filtered set, rows
satisfying `(buyer_id = u AND seller_rating >= 4) OR (seller_id = u AND
buyer_rating >= 4)`. -/
def positiveCount (deals : List Deal) (u : Nat) : Nat :=
  (completedDealsFor deals u).countP fun d =>
    (decide (d.buyer_id = u) && ratingAtLeastFour d.seller_rating) ||
      (decide (d.seller_id = u) && ratingAtLeastFour d.buyer_rating)

/-- The score written by the `UPDATE users` statement:
`CASE WHEN completed = 0 THEN 0 ELSE ROUND(positive / completed * 100)`.
PostgreSQL `ROUND` on a nonnegative numeric agrees with `round` on `ℚ`. -/
def reputationScore (completed positive : Nat) : Int :=
  if completed = 0 then 0
  else round ((positive : ℚ) / (completed : ℚ) * 100)

/-- The per-row effect of the `UPDATE users` statement on the row of the
recomputed user. -/
def recomputeUser (deals : List Deal) (uid : Nat) (u : User) : User :=
  { u with
    reputation_score := reputationScore (completedCount deals uid) (positiveCount deals uid)
    total_trades := completedCount deals uid
    successful_trades := positiveCount deals uid }

/-- `updateUserReputation` (database.ts lines 285-312): recomputes the
counts from the current deal rows, updates the user row in place and
returns `rows[0]?.reputation_score || 0`. -/
def updateUserReputation (db : DB) (uid : Nat) : DB × Int :=
  let users' := db.users.map fun u =>
    if u.id = uid then recomputeUser db.deals uid u else u
  let returned :=
    match users'.find? (fun u => decide (u.id = uid)) with
    | some u => if u.reputation_score = 0 then 0 else u.reputation_score
    | none => 0
  ({ db with users := users' }, returned)

/-! ### Deal status updates (database.ts lines 433-468) -/

/-- The `additionalData` fields the PUT route can pass to
`updateDealStatus`; `none` means the key is absent (skipped by the
`value !== undefined` filter). -/
structure DealUpdate where
  transaction_hash : Option String := none
  escrow_contract_address : Option String := none
  deal_id_on_chain : Option Nat := none
  payment_details : Option String := none
  buyer_rating : Option Nat := none
  seller_rating : Option Nat := none
  buyer_feedback : Option String := none
  seller_feedback : Option String := none
deriving DecidableEq

/-- Keep the old column value unless the update carries a new one. -/
def keepOr (newVal oldVal : Option α) : Option α :=
  match newVal with
  | some v => some v
  | none => oldVal

/-- The per-row effect of the `UPDATE deals SET ...` statement built by
`updateDealStatus`: the status is written unconditionally, `updated_at`
is refreshed, the status-specific timestamp is stamped, and the
`additionalData` columns are overwritten where present. -/
def applyDealUpdate (d : Deal) (status : DealStatus) (upd : DealUpdate)
    (now : Nat) : Deal :=
  { d with
    status := status
    updated_at := now
    funded_at := if status = DealStatus.funded then some now else d.funded_at
    payment_sent_at :=
      if status = DealStatus.payment_sent then some now else d.payment_sent_at
    completed_at :=
      if status = DealStatus.completed then some now else d.completed_at
    transaction_hash := keepOr upd.transaction_hash d.transaction_hash
    escrow_contract_address :=
      keepOr upd.escrow_contract_address d.escrow_contract_address
    deal_id_on_chain := keepOr upd.deal_id_on_chain d.deal_id_on_chain
    payment_details := keepOr upd.payment_details d.payment_details
    buyer_rating := keepOr upd.buyer_rating d.buyer_rating
    seller_rating := keepOr upd.seller_rating d.seller_rating
    buyer_feedback := keepOr upd.buyer_feedback d.buyer_feedback
    seller_feedback := keepOr upd.seller_feedback d.seller_feedback }

/-- `updateDealStatus` (database.ts lines 433-468): an unconditional
`UPDATE deals SET ... WHERE id = $1 RETURNING *`, keyed only by the deal
id — the `deals` table has no version column and the statement has no
other guard.  Returns the updated store and `result[0]`. -/
def updateDealStatus (db : DB) (dealId : Nat) (status : DealStatus)
    (upd : DealUpdate) (now : Nat) : DB × Option Deal :=
  let deals' := db.deals.map fun d =>
    if d.id = dealId then applyDealUpdate d status upd now else d
  ({ db with deals := deals' },
    deals'.find? fun d => decide (d.id = dealId))

/-- `createNotification` (database.ts lines 525-534). -/
def createNotification (db : DB) (uid : Nat) (title message ty : String)
    (relatedId : Option Nat) : DB :=
  { db with
    notifications := db.notifications ++
      [{ user_id := uid, title := title, message := message, type := ty,
         related_id := relatedId, is_read := false }] }

/-- `expireOldDeals` (database.ts lines 559-566), row effect: deals in a
pre-terminal status whose `expires_at` lies in the past become
`expired`; every other row is untouched. -/
def sweepDeal (now : Nat) (d : Deal) : Deal :=
  if (d.status = DealStatus.initiated ∨ d.status = DealStatus.funded ∨
      d.status = DealStatus.payment_sent) ∧ d.expires_at < now then
    { d with status := DealStatus.expired }
  else d

/-- `expireOldDeals` (database.ts lines 559-566): the expiry sweep as a
single `UPDATE` over the deals table. -/
def expireOldDeals (db : DB) (now : Nat) : DB :=
  { db with deals := db.deals.map (sweepDeal now) }

/-! ## Deal API routes (src/app/api/deals/[id]/route.ts and
src/app/api/deals/route.ts) -/

/-- Notification title used by the PUT handler. -/
def titleDealUpdate : String := "Deal Update"

/-- Notification kind for deal events. -/
def kindDeal : String := "deal"

/-- Notification text for a `funded` update. -/
def msgFunded : String := "Deal has been funded with escrow contract"

/-- Notification text for a `payment_sent` update. -/
def msgPaymentSent : String := "Payment has been sent. Please confirm receipt."

/-- Notification text for a `completed` update. -/
def msgCompleted : String := "Deal completed successfully!"

/-- Notification text for a `disputed` update. -/
def msgDisputed : String := "Deal has been disputed. Arbitrator will review."

/-- Notification text for a `cancelled` update. -/
def msgCancelled : String := "Deal has been cancelled"

/-- Buyer-side notification title at deal creation. -/
def titleDealCreated : String := "Deal Created"

/-- Seller-side notification title at deal creation. -/
def titleNewDealRequest : String := "New Deal Request"

/-- Buyer-side notification text at deal creation (interpolated amount
and asset elided). -/
def msgDealCreated : String := "Deal created"

/-- Seller-side notification text at deal creation (interpolated detail
elided). -/
def msgNewDealRequest : String := "New deal request"

/-- Error kinds returned by the route handlers, standing for the JSON
error messages of the source (interpolated details elided). -/
inductive ApiErr
  | walletAndStatusRequired
  | dealNotFound
  | userNotFound
  | unauthorized
  | missingFields
  | amountNotPositive
  | adNotFound
  | buyerNotFound
  | cannotTradeWithYourself
  | belowMinimumAmount
  | aboveMaximumAmount
  | aboveAvailableAmount
  | internalServerError
deriving DecidableEq

/-- A route handler outcome: a JSON success payload or an HTTP error
status with its error kind. -/
inductive ApiResponse (α : Type)
  | ok (value : α)
  | err (statusCode : Nat) (kind : ApiErr)
deriving DecidableEq

/-- The JSON body of a PUT request to `/api/deals/[id]` (route.ts lines
27-36).  The `status` field is one of the seven legal status strings; a
string outside the CHECK constraint would make the `UPDATE` throw and
the handler answer 500 with the store unchanged, a path not modelled. -/
structure PutRequest where
  status : Option DealStatus
  walletAddress : Option String
  transactionHash : Option String := none
  escrowContractAddress : Option String := none
  dealIdOnChain : Option Nat := none
  paymentDetails : Option String := none
  rating : Option Nat := none
  feedback : Option String := none

/-- The `updateData` object built by the PUT handler (route.ts lines
59-76): chain-linkage fields under truthiness, and the rating/feedback
pair stored on the counterpart columns of the submitting party. -/
def updFromReq (req : PutRequest) (user : User) (currentDeal : Deal) :
    DealUpdate :=
  let base : DealUpdate :=
    { transaction_hash := nonEmptyS req.transactionHash
      escrow_contract_address := nonEmptyS req.escrowContractAddress
      deal_id_on_chain := nonZeroN req.dealIdOnChain
      payment_details := nonEmptyS req.paymentDetails }
  if (nonZeroN req.rating).isSome ∧ (nonEmptyS req.feedback).isSome then
    if user.id = currentDeal.buyer_id then
      { base with seller_rating := req.rating, seller_feedback := req.feedback }
    else
      { base with buyer_rating := req.rating, buyer_feedback := req.feedback }
  else base

/-- Notification text sent to the other party, by new status (route.ts
lines 84-106); `initiated` and `expired` produce no notification. -/
def notifMessageFor : DealStatus → Option String
  | DealStatus.funded => some msgFunded
  | DealStatus.payment_sent => some msgPaymentSent
  | DealStatus.completed => some msgCompleted
  | DealStatus.disputed => some msgDisputed
  | DealStatus.cancelled => some msgCancelled
  | _ => none

/-- `PUT /api/deals/[id]` (route.ts lines 24-127).  Checks field
presence, deal existence, user existence and deal participation — and
nothing else: the requested status is then written unconditionally via
`updateDealStatus`.  When the new status is `completed` the handler
recomputes both parties' reputations with two further statements; the
flag `repFails` models those statements throwing (there is no enclosing
transaction, so the catch block answers 500 while the already executed
status write persists). -/
def putDeal (db : DB) (dealIdParam : Nat) (req : PutRequest)
    (repFails : Bool) (now : Nat) : ApiResponse Deal × DB :=
  match nonEmptyS req.walletAddress, req.status with
  | some w, some status =>
    match getDealById db dealIdParam with
    | none => (ApiResponse.err 404 ApiErr.dealNotFound, db)
    | some currentDeal =>
      match getUserByWallet db w with
      | none => (ApiResponse.err 404 ApiErr.userNotFound, db)
      | some user =>
        if user.id ≠ currentDeal.buyer_id ∧ user.id ≠ currentDeal.seller_id then
          (ApiResponse.err 403 ApiErr.unauthorized, db)
        else
          let res := updateDealStatus db dealIdParam status
            (updFromReq req user currentDeal) now
          let db1 := res.1
          match res.2 with
          | none => (ApiResponse.err 500 ApiErr.internalServerError, db1)
          | some updatedDeal =>
            if status = DealStatus.completed ∧ repFails then
              (ApiResponse.err 500 ApiErr.internalServerError, db1)
            else
              let db2 :=
                if status = DealStatus.completed then
                  (updateUserReputation
                    (updateUserReputation db1 currentDeal.buyer_id).1
                    currentDeal.seller_id).1
                else db1
              let otherId :=
                if user.id = currentDeal.buyer_id then currentDeal.seller_id
                else currentDeal.buyer_id
              let db3 :=
                match notifMessageFor status with
                | some m =>
                  createNotification db2 otherId titleDealUpdate m kindDeal
                    (some dealIdParam)
                | none => db2
              (ApiResponse.ok updatedDeal, db3)
  | _, _ => (ApiResponse.err 400 ApiErr.walletAndStatusRequired, db)

/-- The JSON body of a POST request to `/api/deals` (route.ts lines
160-163). -/
structure PostRequest where
  adId : Option Nat
  buyerWallet : Option String
  amount : Option ℚ
  paymentMethod : Option String := none
  upiId : Option String := none

/-- The check `ad.min_amount && amount < ad.min_amount` (route.ts line
192): a `NULL` or `0` minimum is falsy and skips the bound. -/
def belowMin (minAmount : Option ℚ) (amount : ℚ) : Bool :=
  match minAmount with
  | some m => decide (m ≠ 0 ∧ amount < m)
  | none => false

/-- The check `ad.max_amount && amount > ad.max_amount` (route.ts line
196): a `NULL` or `0` maximum is falsy and skips the bound. -/
def aboveMax (maxAmount : Option ℚ) (amount : ℚ) : Bool :=
  match maxAmount with
  | some m => decide (m ≠ 0 ∧ m < amount)
  | none => false

/-- The deal row inserted by `createDeal` for a validated POST request
(route.ts lines 204-221 and database.ts lines 416-431): roles come from
the ad type, price from the ad, `total_inr = amount * price`, status
defaults to `initiated` and expiry to 24 hours from insertion. -/
def mkNewDeal (db : DB) (aid : Nat) (ad : Ad) (buyer : User) (amt : ℚ)
    (req : PostRequest) (now : Nat) : Deal :=
  { id := db.nextDealId
    ad_id := aid
    buyer_id := if ad.type = AdType.sell then buyer.id else ad.user_id
    seller_id := if ad.type = AdType.sell then ad.user_id else buyer.id
    amount := amt
    price := ad.price
    total_inr := amt * ad.price
    escrow_contract_address := none
    transaction_hash := none
    deal_id_on_chain := none
    status := DealStatus.initiated
    payment_method := (nonEmptyS req.paymentMethod).getD ad.payment_method
    payment_details := none
    upi_id := keepOr (nonEmptyS req.upiId) ad.upi_id
    dispute_reason := none
    arbitrator_decision := none
    buyer_rating := none
    seller_rating := none
    buyer_feedback := none
    seller_feedback := none
    created_at := now
    updated_at := now
    funded_at := none
    payment_sent_at := none
    completed_at := none
    expires_at := now + 24 * 60 * 60 }

/-- Store effect of a successful deal creation: the insert plus the two
notifications of route.ts lines 223-241. -/
def insertDeal (db : DB) (newDeal : Deal) : DB :=
  let dbWithDeal :=
    { db with deals := db.deals ++ [newDeal], nextDealId := db.nextDealId + 1 }
  createNotification
    (createNotification dbWithDeal newDeal.buyer_id titleDealCreated
      msgDealCreated kindDeal (some newDeal.id))
    newDeal.seller_id titleNewDealRequest msgNewDealRequest kindDeal
    (some newDeal.id)

/-- `POST /api/deals` (route.ts lines 160-251): presence and positivity
checks, active-ad and buyer lookup, self-trade rejection, the three
amount bounds, then insertion with roles assigned from the ad type. -/
def postDeal (db : DB) (req : PostRequest) (now : Nat) :
    ApiResponse Deal × DB :=
  match req.adId, nonEmptyS req.buyerWallet, req.amount with
  | some aid, some w, some amt =>
    if amt = 0 then (ApiResponse.err 400 ApiErr.missingFields, db)
    else if amt ≤ 0 then (ApiResponse.err 400 ApiErr.amountNotPositive, db)
    else
      match getAdById db aid with
      | none => (ApiResponse.err 404 ApiErr.adNotFound, db)
      | some ad =>
        match getUserByWallet db w with
        | none => (ApiResponse.err 404 ApiErr.buyerNotFound, db)
        | some buyer =>
          if ad.user_id = buyer.id then
            (ApiResponse.err 400 ApiErr.cannotTradeWithYourself, db)
          else if belowMin ad.min_amount amt then
            (ApiResponse.err 400 ApiErr.belowMinimumAmount, db)
          else if aboveMax ad.max_amount amt then
            (ApiResponse.err 400 ApiErr.aboveMaximumAmount, db)
          else if ad.amount < amt then
            (ApiResponse.err 400 ApiErr.aboveAvailableAmount, db)
          else
            let newDeal := mkNewDeal db aid ad buyer amt req now
            (ApiResponse.ok newDeal, insertDeal db newDeal)
  | _, _, _ => (ApiResponse.err 400 ApiErr.missingFields, db)

/-! ## Specification-side reputation formula

The following definitions follow the wording of the specification (§3)
rather than the SQL of the source, so that the two can be compared:
`positive` counts the completed deals of the user in which the rating of
the counterpart is at least 4. -/

/-- Spec wording: the rating column named for the counterpart of the
user in a deal (the seller rating when the user is the buyer, the buyer
rating otherwise). -/
def counterpartRating (d : Deal) (u : Nat) : Option Nat :=
  if d.buyer_id = u then d.seller_rating else d.buyer_rating

/-- Spec wording: among the completed deals of the user, those whose
counterpart rating is at least 4. -/
def specPositiveCount (deals : List Deal) (u : Nat) : Nat :=
  (completedDealsFor deals u).countP fun d =>
    ratingAtLeastFour (counterpartRating d u)

/-- Spec wording: `score = completed = 0 ? 0 :
round(positive / completed * 100)`. -/
def specReputation (deals : List Deal) (u : Nat) : Int :=
  if completedCount deals u = 0 then 0
  else round ((specPositiveCount deals u : ℚ) / (completedCount deals u : ℚ) * 100)

/-! ## Concrete sample data for witnesses and counterexamples -/

/-- Is a route response a success payload. -/
def isOk {α : Type} : ApiResponse α → Bool
  | ApiResponse.ok _ => true
  | ApiResponse.err _ _ => false

/-- Sample buyer wallet address. -/
def walletBuyer : String := "0xb1"

/-- Sample seller wallet address. -/
def walletSeller : String := "0xs1"

/-- Sample ad-owner wallet address. -/
def walletOwner : String := "0xo1"

/-- Sample payment method. -/
def pmUpi : String := "UPI"

/-- Sample asset symbol. -/
def assetBtc : String := "BTC"

/-- Sample buyer user row. -/
def userBuyer : User :=
  { id := 1, wallet_address := walletBuyer, reputation_score := 0,
    total_trades := 0, successful_trades := 0 }

/-- Sample seller user row. -/
def userSeller : User :=
  { id := 2, wallet_address := walletSeller, reputation_score := 0,
    total_trades := 0, successful_trades := 0 }

/-- Sample ad-owner user row. -/
def userOwner : User :=
  { id := 3, wallet_address := walletOwner, reputation_score := 0,
    total_trades := 0, successful_trades := 0 }

/-- Sample deal row between `userBuyer` and `userSeller`. -/
def baseDeal : Deal :=
  { id := 10, ad_id := 5, buyer_id := 1, seller_id := 2, amount := 1,
    price := 300000, total_inr := 300000, escrow_contract_address := none,
    transaction_hash := none, deal_id_on_chain := none,
    status := DealStatus.initiated, payment_method := pmUpi,
    payment_details := none, upi_id := none, dispute_reason := none,
    arbitrator_decision := none, buyer_rating := none, seller_rating := none,
    buyer_feedback := none, seller_feedback := none, created_at := 0,
    updated_at := 0, funded_at := none, payment_sent_at := none,
    completed_at := none, expires_at := 100 }

/-- Sample deal already in the terminal status `completed`. -/
def dealDone : Deal :=
  { baseDeal with status := DealStatus.completed }

/-- Sample deal in status `payment_sent`. -/
def dealPS : Deal :=
  { baseDeal with status := DealStatus.payment_sent }

/-- The empty update payload. -/
def noUpdate : DealUpdate := {}

/-- Store holding one already completed deal. -/
def dbCompleted : DB :=
  { users := [userBuyer, userSeller], ads := [], deals := [dealDone],
    notifications := [], nextDealId := 11 }

/-- Store holding one freshly initiated deal. -/
def dbInitiated : DB :=
  { users := [userBuyer, userSeller], ads := [], deals := [baseDeal],
    notifications := [], nextDealId := 11 }

/-- Store holding one deal in `payment_sent`. -/
def dbPaymentSent : DB :=
  { users := [userBuyer, userSeller], ads := [], deals := [dealPS],
    notifications := [], nextDealId := 11 }

/-- Completed historical deal with both counterpart ratings at least
4. -/
def dealHist1 : Deal :=
  { baseDeal with
    id := 21, status := DealStatus.completed,
    seller_rating := some 5, buyer_rating := some 4 }

/-- Completed historical deal whose counterpart ratings are below 4. -/
def dealHist2 : Deal :=
  { baseDeal with
    id := 22, status := DealStatus.completed,
    seller_rating := some 3, buyer_rating := some 2 }

/-- Completed historical deal with no ratings recorded. -/
def dealHist3 : Deal :=
  { baseDeal with id := 23, status := DealStatus.completed }

/-- Disputed historical deal; rated but not completed, so never
counted. -/
def dealHist4 : Deal :=
  { baseDeal with
    id := 24, status := DealStatus.disputed,
    seller_rating := some 5 }

/-- Store with a completed-deal history carrying ratings: for user 1 the
three completed deals hold counterpart ratings 5, 3 and unset. -/
def dbHistory : DB :=
  { users := [userBuyer, userSeller], ads := [],
    deals := [dealHist1, dealHist2, dealHist3, dealHist4],
    notifications := [], nextDealId := 30 }

/-- PUT request: buyer asks for status `initiated`. -/
def reqSetInitiated : PutRequest :=
  { status := some DealStatus.initiated, walletAddress := some walletBuyer }

/-- PUT request: buyer asks for status `funded`. -/
def reqSetFunded : PutRequest :=
  { status := some DealStatus.funded, walletAddress := some walletBuyer }

/-- PUT request: seller asks for status `payment_sent`. -/
def reqSetPaymentSent : PutRequest :=
  { status := some DealStatus.payment_sent, walletAddress := some walletSeller }

/-- PUT request: seller asks for status `completed`. -/
def reqSetCompleted : PutRequest :=
  { status := some DealStatus.completed, walletAddress := some walletSeller }

/-- Sample sell ad owned by user 3: 10 units at 300000, bounds [1, 5]. -/
def adSell : Ad :=
  { id := 5, user_id := 3, asset := assetBtc, type := AdType.sell,
    amount := 10, price := 300000, min_amount := some 1,
    max_amount := some 5, payment_method := pmUpi, upi_id := none,
    status := AdStatus.active }

/-- Sample buy ad owned by user 3. -/
def adBuy : Ad :=
  { id := 6, user_id := 3, asset := assetBtc, type := AdType.buy,
    amount := 10, price := 250000, min_amount := none, max_amount := none,
    payment_method := pmUpi, upi_id := none, status := AdStatus.active }

/-- Store carrying the two sample ads and the three users, no deals
yet. -/
def dbAds : DB :=
  { users := [userBuyer, userSeller, userOwner], ads := [adSell, adBuy],
    deals := [], notifications := [], nextDealId := 40 }

/-- POST request: user 1 takes the sell ad for 2 units. -/
def reqPostSell : PostRequest :=
  { adId := some 5, buyerWallet := some walletBuyer, amount := some 2 }

/-- POST request: user 1 takes the buy ad for 2 units. -/
def reqPostBuy : PostRequest :=
  { adId := some 6, buyerWallet := some walletBuyer, amount := some 2 }

/-- POST request: the ad owner tries to take their own ad. -/
def reqPostSelf : PostRequest :=
  { adId := some 5, buyerWallet := some walletOwner, amount := some 2 }

/-- POST request: amount above the maximum bound of the sell ad. -/
def reqPostTooBig : PostRequest :=
  { adId := some 5, buyerWallet := some walletBuyer, amount := some 20 }

/-- Sample contract configuration: fee 50 basis points. -/
def envMain : EscrowEnv :=
  { arbitrator := 100, feeRecipient := 101, platformFeePercent := 50 }

/-- Sample on-chain deal under dispute. -/
def chainDealDisputed : ChainDeal :=
  { dealId := 1, buyer := 11, seller := 12, token := 20, amount := 1000000,
    inrAmount := 300000, status := ChainDealStatus.Disputed, createdAt := 0,
    expiresAt := 86400, sellerConfirmed := false, buyerConfirmed := true }

/-- Sample on-chain deal awaiting payment confirmation. -/
def chainDealPaymentSent : ChainDeal :=
  { chainDealDisputed with status := ChainDealStatus.PaymentSent }

/-- Zero reputation map. -/
def repZero : Address → Nat := fun _ => 0

/-! ## Helper lemmas -/

/-- Looking up a key after an id-keyed conditional map rewrite: the
first matching row is the rewritten first matching row, provided the
rewrite preserves ids. -/
lemma find?_idMap {α : Type} (l : List α) (idOf : α → Nat) (i : Nat)
    (f : α → α) (hf : ∀ a, idOf (f a) = idOf a) :
    (l.map fun a => if idOf a = i then f a else a).find?
        (fun a => decide (idOf a = i)) =
      (l.find? fun a => decide (idOf a = i)).map f := by
  induction l with
  | nil => rfl
  | cons a t ih =>
    by_cases h : idOf a = i
    · simp [List.find?, h, hf]
    · simp [List.find?, h, ih]

/-- `updateDealStatus` returns precisely the rewritten first row of the
given id. -/
lemma updateDealStatus_snd (db : DB) (i : Nat) (s : DealStatus)
    (u : DealUpdate) (t : Nat) :
    (updateDealStatus db i s u t).2 =
      (getDealById db i).map fun d => applyDealUpdate d s u t := by
  have h := find?_idMap db.deals Deal.id i
    (fun d => applyDealUpdate d s u t) (fun _ => rfl)
  simpa [updateDealStatus, getDealById] using h

/-- Reading a deal back after `updateDealStatus` on the same id. -/
lemma getDealById_updateDealStatus (db : DB) (i : Nat) (s : DealStatus)
    (u : DealUpdate) (t : Nat) :
    getDealById (updateDealStatus db i s u t).1 i =
      (getDealById db i).map fun d => applyDealUpdate d s u t := by
  have h := find?_idMap db.deals Deal.id i
    (fun d => applyDealUpdate d s u t) (fun _ => rfl)
  simpa [updateDealStatus, getDealById] using h

/-- `updateUserReputation` leaves the deals table unchanged. -/
lemma updateUserReputation_deals (db : DB) (uid : Nat) :
    (updateUserReputation db uid).1.deals = db.deals := rfl

/-- The users table after `updateUserReputation`, as a map. -/
lemma updateUserReputation_users (db : DB) (uid : Nat) :
    (updateUserReputation db uid).1.users =
      db.users.map fun u =>
        if u.id = uid then recomputeUser db.deals uid u else u := rfl

/-- A platform fee of at most 10000 basis points never exceeds the
principal. -/
lemma fee_le_amount (a p : Nat) (hp : p ≤ 10000) : a * p / 10000 ≤ a := by
  calc a * p / 10000 ≤ a * 10000 / 10000 :=
        Nat.div_le_div_right (Nat.mul_le_mul_left a hp)
    _ = a := Nat.mul_div_cancel a (by norm_num)

/-- Inversion of a successful deal creation: a POST that answers `ok`
passed every guard, and the created deal together with the new store are
the ones built in the final branch. -/
lemma postDeal_ok_inv (db : DB) (req : PostRequest) (now : Nat)
    (deal : Deal) (db2 : DB)
    (h : postDeal db req now = (ApiResponse.ok deal, db2)) :
    ∃ aid w amt ad buyer,
      req.adId = some aid ∧
      nonEmptyS req.buyerWallet = some w ∧
      req.amount = some amt ∧
      0 < amt ∧
      getAdById db aid = some ad ∧
      getUserByWallet db w = some buyer ∧
      ad.user_id ≠ buyer.id ∧
      belowMin ad.min_amount amt = false ∧
      aboveMax ad.max_amount amt = false ∧
      amt ≤ ad.amount ∧
      deal = mkNewDeal db aid ad buyer amt req now ∧
      db2 = insertDeal db deal := by
  unfold postDeal at h
  split at h
  case h_2 => exact absurd h (by simp)
  case h_1 aid w amt h1 h2 h3 =>
    split at h
    · exact absurd h (by simp)
    · rename_i hamt0
      split at h
      · exact absurd h (by simp)
      · rename_i hamtle
        split at h
        case h_1 => exact absurd h (by simp)
        case h_2 ad had =>
          split at h
          case h_1 => exact absurd h (by simp)
          case h_2 buyer hbuyer =>
            split at h
            · exact absurd h (by simp)
            · rename_i hne
              split at h
              · exact absurd h (by simp)
              · rename_i hmin
                split at h
                · exact absurd h (by simp)
                · rename_i hmax
                  split at h
                  · exact absurd h (by simp)
                  · rename_i havail
                    simp only [Prod.mk.injEq, ApiResponse.ok.injEq] at h
                    refine ⟨aid, w, amt, ad, buyer, h1, h2, h3,
                      not_le.mp hamtle, had, hbuyer, hne,
                      Bool.eq_false_iff.mpr hmin, Bool.eq_false_iff.mpr hmax,
                      not_lt.mp havail, h.1.symm, ?_⟩
                    rw [← h.2, h.1]

/-- Evaluation of the PUT handler once its guards pass: a present
wallet and status, an existing deal, an existing participating user and
no failure of the reputation statements make the handler answer `ok`
with the rewritten deal, over the store updated in handler order. -/
lemma putDeal_ok_eval (db : DB) (i : Nat) (req : PutRequest) (rf : Bool)
    (now : Nat) (w : String) (s : DealStatus) (d : Deal) (user : User)
    (hw : nonEmptyS req.walletAddress = some w)
    (hs : req.status = some s)
    (hd : getDealById db i = some d)
    (hu : getUserByWallet db w = some user)
    (hpart : user.id = d.buyer_id ∨ user.id = d.seller_id)
    (hok : ¬ (s = DealStatus.completed ∧ rf)) :
    putDeal db i req rf now =
      (let upd := updFromReq req user d
       let db1 := (updateDealStatus db i s upd now).1
       let db2 :=
         if s = DealStatus.completed then
           (updateUserReputation (updateUserReputation db1 d.buyer_id).1
             d.seller_id).1
         else db1
       let otherId :=
         if user.id = d.buyer_id then d.seller_id else d.buyer_id
       let db3 :=
         match notifMessageFor s with
         | some m =>
           createNotification db2 otherId titleDealUpdate m kindDeal (some i)
         | none => db2
       (ApiResponse.ok (applyDealUpdate d s upd now), db3)) := by
  have h2 : (updateDealStatus db i s (updFromReq req user d) now).2 =
      some (applyDealUpdate d s (updFromReq req user d) now) := by
    rw [updateDealStatus_snd, hd]; rfl
  unfold putDeal
  simp only [hw, hs, hd, hu, h2, if_neg hok]
  rw [if_neg (show ¬ (user.id ≠ d.buyer_id ∧ user.id ≠ d.seller_id) from
    fun hcon => hpart.elim hcon.1 hcon.2)]

/-- With the fee capped at 10000 basis points the settlement never
reverts, and its transfer list is explicit. -/
lemma sellerSettlement_ok (env : EscrowEnv) (d : ChainDeal)
    (hfee : env.platformFeePercent ≤ 10000)
    (hov : d.amount * env.platformFeePercent < UINT256) :
    sellerSettlement env d =
      Except.ok (Transfer.mk d.token d.seller
          (d.amount - d.amount * env.platformFeePercent / 10000) ::
        (if 0 < d.amount * env.platformFeePercent / 10000 then
          [Transfer.mk d.token env.feeRecipient
            (d.amount * env.platformFeePercent / 10000)]
        else [])) := by
  unfold sellerSettlement
  rw [if_neg (not_le.mpr hov),
    if_neg (not_lt.mpr (fee_le_amount d.amount env.platformFeePercent hfee))]

/-- The settlement transfer list pays out exactly the escrowed amount. -/
lemma settle_total (t s r a f : Nat) (hf : f ≤ a) :
    transferTotal (Transfer.mk t s (a - f) ::
      (if 0 < f then [Transfer.mk t r f] else [])) = a := by
  by_cases h : 0 < f
  · simp only [if_pos h, transferTotal, List.map_cons, List.map_nil,
      List.sum_cons, List.sum_nil]
    omega
  · have hf0 : f = 0 := Nat.eq_zero_of_not_pos h
    simp [if_neg h, transferTotal, hf0]

/-- On deal rows whose buyer and seller differ, the SQL positive-rating
predicate agrees with the specification wording (rating of the
counterpart at least 4). -/
lemma positiveCount_eq_spec (deals : List Deal) (u : Nat)
    (hds : ∀ d ∈ deals, d.buyer_id ≠ d.seller_id) :
    positiveCount deals u = specPositiveCount deals u := by
  unfold positiveCount specPositiveCount
  apply List.countP_congr
  intro d hdmem
  have hmem := List.mem_filter.mp hdmem
  have hcond : (d.buyer_id = u ∨ d.seller_id = u) ∧
      d.status = DealStatus.completed := by simpa using hmem.2
  have hne := hds d hmem.1
  rcases hcond.1 with hb | hs
  · have hsne : ¬ d.seller_id = u := fun h => hne (hb.trans h.symm)
    simp [counterpartRating, hb, hsne]
  · by_cases hb : d.buyer_id = u
    · exact absurd hs fun h => hne (hb.trans h.symm)
    · simp [counterpartRating, hb, hs]

/-- After recomputing first the buyer and then the seller, every user
row carrying one of the two ids holds the score of the formula over the
(unchanged) deal rows. -/
lemma double_recompute_score (db : DB) (b s : Nat) :
    ∀ usr ∈ (updateUserReputation (updateUserReputation db b).1 s).1.users,
      usr.id = b ∨ usr.id = s →
      usr.reputation_score =
        reputationScore (completedCount db.deals usr.id)
          (positiveCount db.deals usr.id) := by
  intro usr hmem hid
  rw [updateUserReputation_users, updateUserReputation_deals,
    updateUserReputation_users] at hmem
  obtain ⟨u1, hu1mem, rfl⟩ := List.mem_map.mp hmem
  obtain ⟨u0, hu0, rfl⟩ := List.mem_map.mp hu1mem
  by_cases hb : u0.id = b <;> by_cases hs' : u0.id = s <;>
    simp_all [recomputeUser]

/-! ## Claim theorems -/

/-- C4: for every deal in status `Disputed`, resolving with
`favorBuyer = true` completes the deal and transfers exactly the full
escrowed amount to the buyer, with no platform fee deducted from that
payout. -/
theorem c4_resolve_dispute_favor_buyer (env : EscrowEnv) (d : ChainDeal)
    (rep : Address → Nat) (hst : d.status = ChainDealStatus.Disputed) :
    resolveDispute env env.arbitrator true d rep =
      Except.ok ({ d with status := ChainDealStatus.Completed }, rep,
        [Transfer.mk d.token d.buyer d.amount]) ∧
    transferTotal [Transfer.mk d.token d.buyer d.amount] = d.amount := by
  constructor
  · unfold resolveDispute
    rw [if_neg fun h => h rfl, if_neg fun h => h hst]
    rfl
  · simp [transferTotal]

/-- C4 witness: the sample disputed deal, resolved for the buyer. -/
theorem c4_resolve_dispute_favor_buyer_witness :
    chainDealDisputed.status = ChainDealStatus.Disputed ∧
    (resolveDispute envMain envMain.arbitrator true chainDealDisputed repZero =
      Except.ok ({ chainDealDisputed with status := ChainDealStatus.Completed },
        repZero,
        [Transfer.mk chainDealDisputed.token chainDealDisputed.buyer
          chainDealDisputed.amount]) ∧
    transferTotal
        [Transfer.mk chainDealDisputed.token chainDealDisputed.buyer
          chainDealDisputed.amount] = chainDealDisputed.amount) :=
  ⟨rfl, c4_resolve_dispute_favor_buyer envMain chainDealDisputed repZero rfl⟩

/-- C9: in every settlement path of the contract — payment confirmed,
dispute resolved for the seller, dispute resolved for the buyer — the
transfers issued for one deal sum to exactly the escrowed amount: the
seller payout is `amount - fee` with
`fee = amount * platformFeePercent / 10000` rounded down, the fee
transfer equals that fee and is skipped when it is zero, for every
`platformFeePercent ≤ 500` (and non-overflowing fee product). -/
theorem c9_settlement_conservation (env : EscrowEnv) (d : ChainDeal)
    (rep : Address → Nat) (hfee : env.platformFeePercent ≤ 500)
    (hov : d.amount * env.platformFeePercent < UINT256) :
    transferTotal
        (Transfer.mk d.token d.seller
            (d.amount - d.amount * env.platformFeePercent / 10000) ::
          (if 0 < d.amount * env.platformFeePercent / 10000 then
            [Transfer.mk d.token env.feeRecipient
              (d.amount * env.platformFeePercent / 10000)]
          else [])) = d.amount ∧
    (d.status = ChainDealStatus.PaymentSent →
      confirmPaymentReceived env d.seller d rep =
        Except.ok
          ({ d with
              sellerConfirmed := true, status := ChainDealStatus.Completed },
            bumpRep (bumpRep rep d.buyer) d.seller,
            Transfer.mk d.token d.seller
                (d.amount - d.amount * env.platformFeePercent / 10000) ::
              (if 0 < d.amount * env.platformFeePercent / 10000 then
                [Transfer.mk d.token env.feeRecipient
                  (d.amount * env.platformFeePercent / 10000)]
              else []))) ∧
    (d.status = ChainDealStatus.Disputed →
      resolveDispute env env.arbitrator false d rep =
        Except.ok ({ d with status := ChainDealStatus.Completed }, rep,
          Transfer.mk d.token d.seller
              (d.amount - d.amount * env.platformFeePercent / 10000) ::
            (if 0 < d.amount * env.platformFeePercent / 10000 then
              [Transfer.mk d.token env.feeRecipient
                (d.amount * env.platformFeePercent / 10000)]
            else []))) ∧
    (d.status = ChainDealStatus.Disputed →
      resolveDispute env env.arbitrator true d rep =
        Except.ok ({ d with status := ChainDealStatus.Completed }, rep,
          [Transfer.mk d.token d.buyer d.amount]) ∧
      transferTotal [Transfer.mk d.token d.buyer d.amount] = d.amount) := by
  have hfee10000 : env.platformFeePercent ≤ 10000 := hfee.trans (by norm_num)
  have hsettle := sellerSettlement_ok env d hfee10000 hov
  refine ⟨?_, ?_, ?_, ?_⟩
  · exact settle_total d.token d.seller env.feeRecipient d.amount
      (d.amount * env.platformFeePercent / 10000)
      (fee_le_amount d.amount env.platformFeePercent hfee10000)
  · intro hst
    unfold confirmPaymentReceived
    rw [if_neg fun h => h rfl, if_neg fun h => h hst, hsettle]
  · intro hst
    unfold resolveDispute
    rw [if_neg fun h => h rfl, if_neg fun h => h hst, hsettle]
    rfl
  · intro hst
    constructor
    · unfold resolveDispute
      rw [if_neg fun h => h rfl, if_neg fun h => h hst]
      rfl
    · simp [transferTotal]

/-- C9 witness: the sample contract configuration (50 basis points) on
the sample deals, in all three settlement paths. -/
theorem c9_settlement_conservation_witness :
    (envMain.platformFeePercent ≤ 500 ∧
      chainDealPaymentSent.amount * envMain.platformFeePercent < UINT256) ∧
    transferTotal
        (Transfer.mk chainDealPaymentSent.token chainDealPaymentSent.seller
            (chainDealPaymentSent.amount -
              chainDealPaymentSent.amount * envMain.platformFeePercent / 10000) ::
          (if 0 < chainDealPaymentSent.amount * envMain.platformFeePercent / 10000 then
            [Transfer.mk chainDealPaymentSent.token envMain.feeRecipient
              (chainDealPaymentSent.amount * envMain.platformFeePercent / 10000)]
          else [])) = chainDealPaymentSent.amount ∧
    confirmPaymentReceived envMain chainDealPaymentSent.seller
        chainDealPaymentSent repZero =
      Except.ok
        ({ chainDealPaymentSent with
            sellerConfirmed := true, status := ChainDealStatus.Completed },
          bumpRep (bumpRep repZero chainDealPaymentSent.buyer)
            chainDealPaymentSent.seller,
          Transfer.mk chainDealPaymentSent.token chainDealPaymentSent.seller
              (chainDealPaymentSent.amount -
                chainDealPaymentSent.amount * envMain.platformFeePercent / 10000) ::
            (if 0 < chainDealPaymentSent.amount * envMain.platformFeePercent / 10000 then
              [Transfer.mk chainDealPaymentSent.token envMain.feeRecipient
                (chainDealPaymentSent.amount * envMain.platformFeePercent / 10000)]
            else [])) :=
  ⟨⟨by decide, by decide⟩,
    (c9_settlement_conservation envMain chainDealPaymentSent repZero
      (by decide) (by decide)).1,
    (c9_settlement_conservation envMain chainDealPaymentSent repZero
      (by decide) (by decide)).2.1 rfl⟩

/-- C8: the expiry sweep rewrites exactly the deal rows in a
pre-terminal status whose expiry lies in the past, setting only their
status to `expired`; terminal and unexpired rows are untouched, nothing
else in the store changes, and the sweep is idempotent. -/
theorem c8_expiry_sweep_frame (db : DB) (now : Nat) :
    (expireOldDeals db now).users = db.users ∧
    (expireOldDeals db now).deals = db.deals.map (sweepDeal now) ∧
    (∀ d ∈ db.deals,
      ((d.status = DealStatus.completed ∨ d.status = DealStatus.cancelled ∨
          d.status = DealStatus.expired) → sweepDeal now d = d) ∧
      (¬ d.expires_at < now → sweepDeal now d = d) ∧
      ((d.status = DealStatus.initiated ∨ d.status = DealStatus.funded ∨
          d.status = DealStatus.payment_sent) ∧ d.expires_at < now →
        sweepDeal now d = { d with status := DealStatus.expired })) ∧
    expireOldDeals (expireOldDeals db now) now = expireOldDeals db now := by
  refine ⟨rfl, rfl, ?_, ?_⟩
  · intro d _
    refine ⟨?_, ?_, ?_⟩
    · rintro (h | h | h) <;> simp [sweepDeal, h]
    · intro h
      simp [sweepDeal, h]
    · intro h
      simp [sweepDeal, h]
  · have hrow : ∀ d, sweepDeal now (sweepDeal now d) = sweepDeal now d := by
      intro d
      by_cases h : (d.status = DealStatus.initiated ∨
          d.status = DealStatus.funded ∨
          d.status = DealStatus.payment_sent) ∧ d.expires_at < now
      · simp [sweepDeal, h]
      · simp [sweepDeal, h]
    unfold expireOldDeals
    simp only [List.map_map]
    have hcomp : sweepDeal now ∘ sweepDeal now = sweepDeal now := funext hrow
    rw [hcomp]

/-- C8 witness: the initiated sample deal expires under a late sweep,
and the double sweep of the sample store equals the single sweep. -/
theorem c8_expiry_sweep_frame_witness :
    sweepDeal 200 baseDeal = { baseDeal with status := DealStatus.expired } ∧
    expireOldDeals (expireOldDeals dbInitiated 200) 200 =
      expireOldDeals dbInitiated 200 :=
  ⟨((c8_expiry_sweep_frame dbInitiated 200).2.2.1 baseDeal
      (by decide)).2.2 ⟨Or.inl rfl, by decide⟩,
    (c8_expiry_sweep_frame dbInitiated 200).2.2.2⟩

/-- C3: recomputed reputation equals 0 for a user with no completed
deals and otherwise `round(positive / completed * 100)`, where
`completed` counts the completed deals in which the user is buyer or
seller and `positive` those of them whose counterpart rating is at
least 4 — provided every deal row satisfies the documented invariant
`buyer_id ≠ seller_id`. -/
theorem c3_reputation_formula (db : DB) (uid : Nat)
    (hds : ∀ d ∈ db.deals, d.buyer_id ≠ d.seller_id) :
    (∀ usr ∈ (updateUserReputation db uid).1.users, usr.id = uid →
      usr.reputation_score = specReputation db.deals uid) ∧
    ((∃ usr ∈ db.users, usr.id = uid) →
      (updateUserReputation db uid).2 = specReputation db.deals uid) := by
  have hscore : reputationScore (completedCount db.deals uid)
      (positiveCount db.deals uid) = specReputation db.deals uid := by
    unfold reputationScore specReputation
    rw [positiveCount_eq_spec db.deals uid hds]
  constructor
  · intro usr hmem hid
    rw [updateUserReputation_users] at hmem
    obtain ⟨u0, hu0, rfl⟩ := List.mem_map.mp hmem
    by_cases h : u0.id = uid
    · rw [if_pos h]
      exact hscore
    · rw [if_neg h] at hid
      exact absurd hid h
  · rintro ⟨usr, husr, hid⟩
    have hsome : ((updateUserReputation db uid).1.users.find?
        (fun u => decide (u.id = uid))).isSome := by
      rw [updateUserReputation_users,
        find?_idMap db.users User.id uid (recomputeUser db.deals uid)
          (fun _ => rfl)]
      cases hfind : db.users.find? fun a => decide (a.id = uid) with
      | none =>
        have hcon := List.find?_eq_none.mp hfind usr husr
        simp [hid] at hcon
      | some u0 => rfl
    obtain ⟨u1, hu1⟩ := Option.isSome_iff_exists.mp hsome
    have hu1spec : u1.reputation_score = specReputation db.deals uid := by
      have hmem := List.mem_of_find?_eq_some hu1
      have hid1 : u1.id = uid := by
        have := List.find?_some hu1
        simpa using this
      rw [updateUserReputation_users] at hmem
      obtain ⟨u0, hu0, rfl⟩ := List.mem_map.mp hmem
      by_cases h : u0.id = uid
      · rw [if_pos h]
        exact hscore
      · rw [if_neg h] at hid1
        exact absurd hid1 h
    show (match (updateUserReputation db uid).1.users.find?
        (fun u => decide (u.id = uid)) with
      | some u => if u.reputation_score = 0 then 0 else u.reputation_score
      | none => 0) = specReputation db.deals uid
    rw [hu1]
    show (if u1.reputation_score = 0 then 0 else u1.reputation_score) =
      specReputation db.deals uid
    by_cases hz : u1.reputation_score = 0
    · rw [if_pos hz, ← hz, hu1spec]
    · rw [if_neg hz, hu1spec]

/-- C3 witness: user 1 of the sample history has three completed deals,
one of them with counterpart rating at least 4, so the recomputed score
is `round(1/3*100) = 33`. -/
theorem c3_reputation_formula_witness :
    (∀ d ∈ dbHistory.deals, d.buyer_id ≠ d.seller_id) ∧
    (updateUserReputation dbHistory 1).2 = specReputation dbHistory.deals 1 ∧
    specReputation dbHistory.deals 1 = 33 :=
  ⟨by decide,
    (c3_reputation_formula dbHistory 1 (by decide)).2
      ⟨userBuyer, by decide, by decide⟩,
    by
      have h1 : completedCount dbHistory.deals 1 = 3 := by decide
      have h2 : specPositiveCount dbHistory.deals 1 = 1 := by decide
      rw [specReputation, h1, h2]
      norm_num [round_eq]⟩

/-- C6: every successfully created deal has distinct buyer and seller
ids; a creation request by the owner of the originating ad is rejected
with a 400 error and creates no deal; the contract createDeal likewise
rejects `_seller = msg.sender` and otherwise records distinct parties. -/
theorem c6_no_self_trade (db : DB) (req : PostRequest) (now : Nat) :
    (∀ deal db2, postDeal db req now = (ApiResponse.ok deal, db2) →
      deal.buyer_id ≠ deal.seller_id) ∧
    (∀ aid w amt ad buyer,
      req.adId = some aid →
      nonEmptyS req.buyerWallet = some w →
      req.amount = some amt →
      0 < amt →
      getAdById db aid = some ad →
      getUserByWallet db w = some buyer →
      ad.user_id = buyer.id →
      postDeal db req now =
        (ApiResponse.err 400 ApiErr.cannotTradeWithYourself, db)) ∧
    (∀ sender seller token a inr nid t deal2,
      chainCreateDeal sender seller token a inr nid t = Except.ok deal2 →
      deal2.buyer ≠ deal2.seller) ∧
    (∀ sender token a inr nid t,
      chainCreateDeal sender sender token a inr nid t =
        Except.error EvmErr.cannotTradeWithYourself) := by
  refine ⟨?_, ?_, ?_, ?_⟩
  · intro deal db2 h
    obtain ⟨aid, w, amt, ad, buyer, _, _, _, _, _, _, hne, _, _, _, hdeal, _⟩ :=
      postDeal_ok_inv db req now deal db2 h
    subst hdeal
    by_cases hty : ad.type = AdType.sell
    · simp only [mkNewDeal, if_pos hty]
      exact fun hcon => hne hcon.symm
    · simp only [mkNewDeal, if_neg hty]
      exact hne
  · intro aid w amt ad buyer haid hw hamt hpos had hbuyer howner
    unfold postDeal
    simp only [haid, hw, hamt, had, hbuyer]
    rw [if_neg (ne_of_gt hpos), if_neg (not_le.mpr hpos), if_pos howner]
  · intro sender seller token a inr nid t deal2 h
    unfold chainCreateDeal at h
    split at h
    · exact absurd h (by simp)
    · split at h
      · exact absurd h (by simp)
      · split at h
        · exact absurd h (by simp)
        · rename_i hne _ _
          obtain rfl := (Except.ok.injEq .. ▸ h :)
          exact fun hcon => hne (by simpa using hcon.symm)
  · intro sender token a inr nid t
    unfold chainCreateDeal
    rw [if_pos rfl]

/-- C6 witness: the created sample deal has distinct parties, and the
ad owner taking their own ad is rejected without a new deal. -/
theorem c6_no_self_trade_witness :
    (mkNewDeal dbAds 5 adSell userBuyer 2 reqPostSell 7).buyer_id ≠
      (mkNewDeal dbAds 5 adSell userBuyer 2 reqPostSell 7).seller_id ∧
    postDeal dbAds reqPostSelf 7 =
      (ApiResponse.err 400 ApiErr.cannotTradeWithYourself, dbAds) :=
  ⟨(c6_no_self_trade dbAds reqPostSell 7).1
      (mkNewDeal dbAds 5 adSell userBuyer 2 reqPostSell 7)
      (insertDeal dbAds (mkNewDeal dbAds 5 adSell userBuyer 2 reqPostSell 7))
      rfl,
    (c6_no_self_trade dbAds reqPostSelf 7).2.1 5 walletOwner 2 adSell
      userOwner rfl (by decide) rfl (by decide) (by decide) (by decide) rfl⟩

/-- C7: a successfully created deal respects the bounds of the
originating ad — at least the set minimum, at most a set (truthy)
maximum, and at most the available amount — and a request violating a
bound is answered with a 400 validation error without creating a
deal.  A stored bound of `0` counts as unset: both the POST check and
ad creation treat `0` as absent (JavaScript truthiness,
`adData.min_amount || null`). -/
theorem c7_amount_bounds (db : DB) (req : PostRequest) (now : Nat) :
    (∀ deal db2 aid ad,
      postDeal db req now = (ApiResponse.ok deal, db2) →
      req.adId = some aid →
      getAdById db aid = some ad →
      (∀ m, ad.min_amount = some m → m ≤ deal.amount) ∧
      (∀ m, ad.max_amount = some m → m ≠ 0 → deal.amount ≤ m) ∧
      deal.amount ≤ ad.amount) ∧
    (∀ aid w amt ad buyer,
      req.adId = some aid →
      nonEmptyS req.buyerWallet = some w →
      req.amount = some amt →
      0 < amt →
      getAdById db aid = some ad →
      getUserByWallet db w = some buyer →
      (belowMin ad.min_amount amt = true ∨ aboveMax ad.max_amount amt = true ∨
        ad.amount < amt) →
      (postDeal db req now).2 = db ∧
      ∃ k, (postDeal db req now).1 = ApiResponse.err 400 k) := by
  constructor
  · intro deal db2 aid ad h haid had
    obtain ⟨aid2, w, amt, ad2, buyer, haid2, _, _, hpos, had2, _, _, hmin,
      hmax, havail, hdeal, _⟩ := postDeal_ok_inv db req now deal db2 h
    obtain rfl : aid = aid2 := by
      rw [haid] at haid2
      exact (Option.some.injEq .. ▸ haid2 :)
    obtain rfl : ad = ad2 := by
      rw [had] at had2
      exact (Option.some.injEq .. ▸ had2 :)
    have hdamt : deal.amount = amt := by
      subst hdeal
      rfl
    refine ⟨?_, ?_, ?_⟩
    · intro m hm
      rw [hdamt]
      by_cases hm0 : m = 0
      · rw [hm0]
        exact le_of_lt hpos
      · have := hmin
        rw [hm] at this
        simp only [belowMin, decide_eq_false_iff_not, not_and, not_lt] at this
        exact this hm0
    · intro m hm hm0
      rw [hdamt]
      have := hmax
      rw [hm] at this
      simp only [aboveMax, decide_eq_false_iff_not, not_and, not_lt] at this
      exact this hm0
    · rw [hdamt]
      exact havail
  · intro aid w amt ad buyer haid hw hamt hpos had hbuyer hviol
    unfold postDeal
    simp only [haid, hw, hamt, had, hbuyer]
    rw [if_neg (ne_of_gt hpos), if_neg (not_le.mpr hpos)]
    by_cases howner : ad.user_id = buyer.id
    · rw [if_pos howner]
      exact ⟨rfl, ApiErr.cannotTradeWithYourself, rfl⟩
    · rw [if_neg howner]
      by_cases h1 : belowMin ad.min_amount amt = true
      · rw [if_pos h1]
        exact ⟨rfl, ApiErr.belowMinimumAmount, rfl⟩
      · rw [if_neg h1]
        by_cases h2 : aboveMax ad.max_amount amt = true
        · rw [if_pos h2]
          exact ⟨rfl, ApiErr.aboveMaximumAmount, rfl⟩
        · rw [if_neg h2]
          rcases hviol with hv | hv | hv
          · exact absurd hv h1
          · exact absurd hv h2
          · rw [if_pos hv]
            exact ⟨rfl, ApiErr.aboveAvailableAmount, rfl⟩

/-- C7 witness: the accepted sample request lies within the sell-ad
bounds, and an amount below the minimum is rejected with a 400 error
and an unchanged store. -/
theorem c7_amount_bounds_witness :
    ((mkNewDeal dbAds 5 adSell userBuyer 2 reqPostSell 7).amount ≤
      adSell.amount) ∧
    (postDeal dbAds reqPostTooBig 7).2 = dbAds ∧
    ∃ k, (postDeal dbAds reqPostTooBig 7).1 = ApiResponse.err 400 k :=
  ⟨((c7_amount_bounds dbAds reqPostSell 7).1
      (mkNewDeal dbAds 5 adSell userBuyer 2 reqPostSell 7)
      (insertDeal dbAds (mkNewDeal dbAds 5 adSell userBuyer 2 reqPostSell 7))
      5 adSell rfl rfl (by decide)).2.2,
    (c7_amount_bounds dbAds reqPostTooBig 7).2 5 walletBuyer 20 adSell
      userBuyer rfl (by decide) rfl (by decide) (by decide) (by decide)
      (Or.inr (Or.inl (by decide)))⟩

/-- C10: a successfully created deal takes its roles from the type of
the originating ad — the requesting wallet becomes the buyer of a sell
ad and the seller of a buy ad, with the ad owner in the opposite role —
and its total fiat equals amount times the ad price. -/
theorem c10_roles_from_ad_type (db : DB) (req : PostRequest) (now : Nat) :
    ∀ deal db2 aid ad w buyer,
      postDeal db req now = (ApiResponse.ok deal, db2) →
      req.adId = some aid →
      getAdById db aid = some ad →
      nonEmptyS req.buyerWallet = some w →
      getUserByWallet db w = some buyer →
      (ad.type = AdType.sell →
        deal.buyer_id = buyer.id ∧ deal.seller_id = ad.user_id) ∧
      (ad.type = AdType.buy →
        deal.buyer_id = ad.user_id ∧ deal.seller_id = buyer.id) ∧
      deal.price = ad.price ∧
      deal.total_inr = deal.amount * ad.price := by
  intro deal db2 aid ad w buyer h haid had hw hbuyer
  obtain ⟨aid2, w2, amt, ad2, buyer2, haid2, hw2, _, _, had2, hbuyer2, _, _,
    _, _, hdeal, _⟩ := postDeal_ok_inv db req now deal db2 h
  obtain rfl : aid = aid2 := by
    rw [haid] at haid2
    exact (Option.some.injEq .. ▸ haid2 :)
  obtain rfl : ad = ad2 := by
    rw [had] at had2
    exact (Option.some.injEq .. ▸ had2 :)
  obtain rfl : w = w2 := by
    rw [hw] at hw2
    exact (Option.some.injEq .. ▸ hw2 :)
  obtain rfl : buyer = buyer2 := by
    rw [hbuyer] at hbuyer2
    exact (Option.some.injEq .. ▸ hbuyer2 :)
  subst hdeal
  refine ⟨?_, ?_, rfl, rfl⟩
  · intro hty
    constructor
    · simp [mkNewDeal, if_pos hty]
    · simp [mkNewDeal, if_pos hty]
  · intro hty
    have hne : ¬ ad.type = AdType.sell := by
      rw [hty]
      intro hcon
      cases hcon
    constructor
    · simp [mkNewDeal, if_neg hne]
    · simp [mkNewDeal, if_neg hne]

/-- C10 witness: the sample sell ad makes the requester the buyer; the
sample buy ad makes the requester the seller; the fiat total is the
product in both cases. -/
theorem c10_roles_from_ad_type_witness :
    ((mkNewDeal dbAds 5 adSell userBuyer 2 reqPostSell 7).buyer_id =
        userBuyer.id ∧
      (mkNewDeal dbAds 5 adSell userBuyer 2 reqPostSell 7).seller_id =
        adSell.user_id) ∧
    ((mkNewDeal dbAds 6 adBuy userBuyer 2 reqPostBuy 7).buyer_id =
        adBuy.user_id ∧
      (mkNewDeal dbAds 6 adBuy userBuyer 2 reqPostBuy 7).seller_id =
        userBuyer.id) ∧
    (mkNewDeal dbAds 5 adSell userBuyer 2 reqPostSell 7).total_inr =
      (mkNewDeal dbAds 5 adSell userBuyer 2 reqPostSell 7).amount *
        adSell.price :=
  ⟨(c10_roles_from_ad_type dbAds reqPostSell 7
      (mkNewDeal dbAds 5 adSell userBuyer 2 reqPostSell 7)
      (insertDeal dbAds (mkNewDeal dbAds 5 adSell userBuyer 2 reqPostSell 7))
      5 adSell walletBuyer userBuyer rfl rfl (by decide) (by decide)
      (by decide)).1 rfl,
    (c10_roles_from_ad_type dbAds reqPostBuy 7
      (mkNewDeal dbAds 6 adBuy userBuyer 2 reqPostBuy 7)
      (insertDeal dbAds (mkNewDeal dbAds 6 adBuy userBuyer 2 reqPostBuy 7))
      6 adBuy walletBuyer userBuyer rfl rfl (by decide) (by decide)
      (by decide)).2.1 rfl,
    (c10_roles_from_ad_type dbAds reqPostSell 7
      (mkNewDeal dbAds 5 adSell userBuyer 2 reqPostSell 7)
      (insertDeal dbAds (mkNewDeal dbAds 5 adSell userBuyer 2 reqPostSell 7))
      5 adSell walletBuyer userBuyer rfl rfl (by decide) (by decide)
      (by decide)).2.2.2⟩

/-- C1 counterexample: the claim that a status pair outside the
transition graph is rejected with `InvalidTransition`, leaving the
status unchanged, is false on the code — a participant request moving
an already completed deal back to `initiated` is applied and answered
with a success payload. -/
theorem c1_counterexample :
    dbCompleted.deals.map Deal.status = [DealStatus.completed] ∧
    isOk (putDeal dbCompleted 10 reqSetInitiated false 50).1 = true ∧
    (putDeal dbCompleted 10 reqSetInitiated false 50).2.deals.map Deal.status =
      [DealStatus.initiated] := by decide

/-- C1 (amended): the PUT handler validates only field presence and
deal participation, never the transition graph — any requested status
from a participant is written unconditionally, whatever the current
status, and answered `ok`; no `InvalidTransition` rejection exists. -/
theorem c1_amended_no_transition_validation (db : DB) (i : Nat)
    (req : PutRequest) (now : Nat) (w : String) (s : DealStatus) (d : Deal)
    (user : User)
    (hw : nonEmptyS req.walletAddress = some w)
    (hs : req.status = some s)
    (hd : getDealById db i = some d)
    (hu : getUserByWallet db w = some user)
    (hpart : user.id = d.buyer_id ∨ user.id = d.seller_id) :
    (putDeal db i req false now).1 =
      ApiResponse.ok (applyDealUpdate d s (updFromReq req user d) now) ∧
    getDealById (putDeal db i req false now).2 i =
      some (applyDealUpdate d s (updFromReq req user d) now) ∧
    (applyDealUpdate d s (updFromReq req user d) now).status = s := by
  have heval := putDeal_ok_eval db i req false now w s d user hw hs hd hu
    hpart (by simp)
  rw [heval]
  refine ⟨rfl, ?_, rfl⟩
  have hbase : getDealById
      (updateDealStatus db i s (updFromReq req user d) now).1 i =
      some (applyDealUpdate d s (updFromReq req user d) now) := by
    rw [getDealById_updateDealStatus, hd]
    rfl
  cases s <;> exact hbase

/-- C1 witness: the completed sample deal, asked back to `initiated` by
the buyer. -/
theorem c1_amended_no_transition_validation_witness :
    getDealById dbCompleted 10 = some dealDone ∧
    ((putDeal dbCompleted 10 reqSetInitiated false 50).1 =
        ApiResponse.ok (applyDealUpdate dealDone DealStatus.initiated
          (updFromReq reqSetInitiated userBuyer dealDone) 50) ∧
      getDealById (putDeal dbCompleted 10 reqSetInitiated false 50).2 10 =
        some (applyDealUpdate dealDone DealStatus.initiated
          (updFromReq reqSetInitiated userBuyer dealDone) 50) ∧
      (applyDealUpdate dealDone DealStatus.initiated
          (updFromReq reqSetInitiated userBuyer dealDone) 50).status =
        DealStatus.initiated) :=
  ⟨by decide,
    c1_amended_no_transition_validation dbCompleted 10 reqSetInitiated 50
      walletBuyer DealStatus.initiated dealDone userBuyer (by decide) rfl
      (by decide) (by decide) (Or.inl (by decide))⟩

/-- C2 counterexample: the claim of a version-conditioned write — the
second of two updates based on the same initial read must fail with
`StateConflict` — is false on the code: both conflicting updates
succeed and the second silently overwrites (the deal record carries no
version at all). -/
theorem c2_counterexample :
    isOk (putDeal dbInitiated 10 reqSetFunded false 1).1 = true ∧
    isOk (putDeal (putDeal dbInitiated 10 reqSetFunded false 1).2 10
        reqSetPaymentSent false 2).1 = true ∧
    (putDeal (putDeal dbInitiated 10 reqSetFunded false 1).2 10
        reqSetPaymentSent false 2).2.deals.map Deal.status =
      [DealStatus.payment_sent] := by decide

/-- C2 (amended): applying a status update is an unconditional write
keyed only by the deal id — the deal record has no version column, the
update always succeeds and returns the rewritten row, and a second
update over the first (a stale-read overwrite) succeeds the same way;
no `StateConflict` outcome exists. -/
theorem c2_amended_unconditional_write (db : DB) (i : Nat) (s : DealStatus)
    (u : DealUpdate) (t : Nat) (d : Deal)
    (hd : getDealById db i = some d) :
    (updateDealStatus db i s u t).2 = some (applyDealUpdate d s u t) ∧
    getDealById (updateDealStatus db i s u t).1 i =
      some (applyDealUpdate d s u t) ∧
    ∀ s2 u2 t2,
      (updateDealStatus (updateDealStatus db i s u t).1 i s2 u2 t2).2 =
        some (applyDealUpdate (applyDealUpdate d s u t) s2 u2 t2) := by
  have h2 : getDealById (updateDealStatus db i s u t).1 i =
      some (applyDealUpdate d s u t) := by
    rw [getDealById_updateDealStatus, hd]
    rfl
  refine ⟨?_, h2, ?_⟩
  · rw [updateDealStatus_snd, hd]
    rfl
  · intro s2 u2 t2
    rw [updateDealStatus_snd, h2]
    rfl

/-- C2 witness: two overwrites in a row on the sample initiated deal,
both succeeding. -/
theorem c2_amended_unconditional_write_witness :
    getDealById dbInitiated 10 = some baseDeal ∧
    ((updateDealStatus dbInitiated 10 DealStatus.funded noUpdate 1).2 =
        some (applyDealUpdate baseDeal DealStatus.funded noUpdate 1) ∧
      (updateDealStatus
          (updateDealStatus dbInitiated 10 DealStatus.funded noUpdate 1).1 10
          DealStatus.payment_sent noUpdate 2).2 =
        some (applyDealUpdate
          (applyDealUpdate baseDeal DealStatus.funded noUpdate 1)
          DealStatus.payment_sent noUpdate 2)) :=
  ⟨by decide,
    (c2_amended_unconditional_write dbInitiated 10 DealStatus.funded noUpdate
      1 baseDeal (by decide)).1,
    (c2_amended_unconditional_write dbInitiated 10 DealStatus.funded noUpdate
      1 baseDeal (by decide)).2.2 DealStatus.payment_sent noUpdate 2⟩

/-- C5 counterexample: the claim that reputations are recomputed
atomically with the status write is false on the code — the handler
issues separate statements with no transaction, so a failing reputation
statement leaves the status already written to `completed`, both user
rows stale, and the request answered 500. -/
theorem c5_counterexample :
    (putDeal dbPaymentSent 10 reqSetCompleted true 50).1 =
      ApiResponse.err 500 ApiErr.internalServerError ∧
    (putDeal dbPaymentSent 10 reqSetCompleted true 50).2.deals.map
        Deal.status = [DealStatus.completed] ∧
    (putDeal dbPaymentSent 10 reqSetCompleted true 50).2.users =
      dbPaymentSent.users := by decide

/-- C5 (amended): when a participant request sets the status to
`completed` and no statement fails, both parties' reputations are
recomputed synchronously within the same request, after the status
write and over the deal rows that include it; a request for any other
status recomputes no reputation. The recomputation is not atomic with
the status write (see the counterexample). -/
theorem c5_amended_reputation_on_completion (db : DB) (i : Nat)
    (req : PutRequest) (now : Nat) (w : String) (s : DealStatus) (d : Deal)
    (user : User)
    (hw : nonEmptyS req.walletAddress = some w)
    (hs : req.status = some s)
    (hd : getDealById db i = some d)
    (hu : getUserByWallet db w = some user)
    (hpart : user.id = d.buyer_id ∨ user.id = d.seller_id) :
    (s = DealStatus.completed →
      ∀ usr ∈ (putDeal db i req false now).2.users,
        usr.id = d.buyer_id ∨ usr.id = d.seller_id →
        usr.reputation_score =
          reputationScore
            (completedCount
              (updateDealStatus db i s (updFromReq req user d) now).1.deals
              usr.id)
            (positiveCount
              (updateDealStatus db i s (updFromReq req user d) now).1.deals
              usr.id)) ∧
    (s ≠ DealStatus.completed →
      (putDeal db i req false now).2.users = db.users) := by
  have heval := putDeal_ok_eval db i req false now w s d user hw hs hd hu
    hpart (by simp)
  constructor
  · intro hc usr hmem hid
    subst hc
    rw [heval] at hmem
    exact double_recompute_score
      (updateDealStatus db i DealStatus.completed (updFromReq req user d)
        now).1 d.buyer_id d.seller_id usr hmem hid
  · intro hc
    rw [heval]
    cases s
    case completed => exact absurd rfl hc
    all_goals rfl

/-- C5 witness: completing the sample payment-sent deal recomputes the
buyer row from the post-write deal rows, while a `funded` request on
the initiated store leaves every user row unchanged. -/
theorem c5_amended_reputation_on_completion_witness :
    ((recomputeUser (updateDealStatus dbPaymentSent 10 DealStatus.completed
          (updFromReq reqSetCompleted userSeller dealPS) 50).1.deals 1
        userBuyer).reputation_score =
      reputationScore
        (completedCount (updateDealStatus dbPaymentSent 10
          DealStatus.completed (updFromReq reqSetCompleted userSeller dealPS)
          50).1.deals 1)
        (positiveCount (updateDealStatus dbPaymentSent 10
          DealStatus.completed (updFromReq reqSetCompleted userSeller dealPS)
          50).1.deals 1)) ∧
    (putDeal dbInitiated 10 reqSetFunded false 50).2.users =
      dbInitiated.users :=
  ⟨(c5_amended_reputation_on_completion dbPaymentSent 10 reqSetCompleted 50
      walletSeller DealStatus.completed dealPS userSeller (by decide) rfl
      (by decide) (by decide) (Or.inr (by decide))).1 rfl
      (recomputeUser (updateDealStatus dbPaymentSent 10 DealStatus.completed
          (updFromReq reqSetCompleted userSeller dealPS) 50).1.deals 1
        userBuyer)
      (List.Mem.head _) (Or.inl rfl),
    (c5_amended_reputation_on_completion dbInitiated 10 reqSetFunded 50
      walletBuyer DealStatus.funded baseDeal userBuyer (by decide) rfl
      (by decide) (by decide) (Or.inl (by decide))).2 (by decide)⟩

end SwapSathi
